import Mathlib

/-!
# Wallet ledger and payment-transaction engine: a shallow embedding

This file embeds the payment/ledger logic of the passenger wallet app
(`taxi-money-passenger`) in Lean and proves properties of the embedded code.

Embedded source files:
* `src/app/api/payments/pay/route.ts` (final revision, the one that starts with
  the comment "FIXED: Removed problematic duplicate check"): the
  passenger-to-driver transfer handler `POST`.
* `src/unnamed/part_015`, third document (header `/app/api/webhooks/fapshi/route.ts`,
  "FIXED: Better logging, flexible status handling"): the webhook reconciler
  `POST` with the field-name and status alias tables.
* `src/app/api/payments/recharge/route.ts` (second revision, "FINAL VERSION"):
  the recharge initiation handler `POST`.
* `src/lib/db/models/Transaction.ts` and `src/lib/db/models/Passenger.ts`:
  the data model.

Modelling conventions:
* MongoDB collections are lists of documents; `findOne` is `List.find?`
  (first match), a `save()` of a loaded document writes the document back over
  the first element with the same `_id`, `findOneAndUpdate`/`findByIdAndUpdate`
  update the first matching element in place.  Fresh `_id`s for created
  Transaction documents come from a counter in the store state.
* JavaScript numbers that hold money are modelled as `ℚ` (the handlers do
  exact arithmetic on them; `NaN` is modelled explicitly where the code tests
  for it).  JavaScript strings are Lean `String`s; `toLowerCase`, `toUpperCase`
  and `trim` are modelled character-wise over the string data (the source only
  ever feeds them ASCII identifiers and status words).
* `bcrypt.compare(candidate, hash)` (the `comparePin` method of the Passenger
  model) is modelled as equality of the candidate with the enrolled PIN.
* A JavaScript falsy test `!x` on an optional string field is `strFalsy`;
  `a || b` on such fields is `jsOr`.
-/

/-- JavaScript `String.prototype.toLowerCase` restricted to ASCII data,
applied character-wise. -/
def strToLower (s : String) : String := ⟨s.data.map Char.toLower⟩

/-- JavaScript `String.prototype.toUpperCase` restricted to ASCII data,
applied character-wise. -/
def strToUpper (s : String) : String := ⟨s.data.map Char.toUpper⟩

/-- JavaScript `String.prototype.trim`: strip whitespace from both ends. -/
def strTrim (s : String) : String :=
  ⟨(s.data.dropWhile Char.isWhitespace).reverse.dropWhile Char.isWhitespace |>.reverse⟩

/-- Truthiness test for an optional string field: `undefined`/`null` and the
empty string are falsy. -/
def strFalsy : Option String → Bool
  | none => true
  | some s => s == ""

/-- JavaScript `a || b` on optional string fields: keep `a` when truthy,
otherwise fall through to `b`. -/
def jsOr (a b : Option String) : Option String :=
  match a with
  | some s => if s == "" then b else some s
  | none => b

/-- Transaction status enum of `Transaction.ts`:
`'Pending' | 'Success' | 'Failed'`. -/
inductive TxStatus where
  | Pending
  | Success
  | Failed
deriving DecidableEq, Repr

/-- `userType` enum of `Transaction.ts`: `'Passenger' | 'Driver'`. -/
inductive TxUserType where
  | Passenger
  | Driver
deriving DecidableEq, Repr

/-- Transaction type enum of `Transaction.ts`:
`'Recharge' | 'Withdrawal' | 'Payment' | 'Charge'`. -/
inductive TxType where
  | Recharge
  | Withdrawal
  | Payment
  | Charge
deriving DecidableEq, Repr

/-- A document of the `passengers` collection (`Passenger.ts`).  `pid` is the
Mongo `_id` (as a string), `wallet` the balance field the payment routes read
and write, `pin` the enrolled 4-digit PIN (standing for its bcrypt hash). -/
structure Passenger where
  pid : String
  authId : String
  firstName : String
  lastName : String
  phoneNumber : String
  pin : String
  wallet : ℚ
deriving DecidableEq, Repr

/-- A document of the `drivers` collection (the inline read-only
`DriverSchema` of the pay route).  `availableBalance` is an optional `Number`
field (`none` models a document where the field is absent). -/
structure Driver where
  did : String
  authId : String
  firstName : String
  lastName : String
  phoneNumber : String
  availableBalance : Option ℚ
deriving DecidableEq, Repr

/-- A document of the `transactions` collection (`Transaction.ts`).  `tid`
is the Mongo `_id`, modelled as a number drawn from a per-store counter. -/
structure Transaction where
  tid : ℕ
  userId : String
  userType : TxUserType
  type : TxType
  status : TxStatus
  amount : ℚ
  method : String
  fapshiTransactionId : Option String
  externalId : Option String
  phoneNumber : String
  notes : Option String
deriving DecidableEq, Repr

/-- The durable store: the three MongoDB collections used by the payment
routes, plus the `_id` counter for created Transaction documents. -/
structure DB where
  passengers : List Passenger
  drivers : List Driver
  transactions : List Transaction
  nextTid : ℕ
deriving DecidableEq, Repr

/-- Update the first element satisfying `p` by `f`; leave the rest unchanged.
This is the list model of a MongoDB single-document update. -/
def updateFirst (p : α → Bool) (f : α → α) : List α → List α
  | [] => []
  | x :: xs => if p x then f x :: xs else x :: updateFirst p f xs

/-- `Transaction.create`: append a fresh document (its `_id` is the current
counter value) and bump the counter.  Returns the new store and the `_id`. -/
def DB.createTx (db : DB) (f : ℕ → Transaction) : DB × ℕ :=
  ({ db with
      transactions := db.transactions ++ [f db.nextTid]
      nextTid := db.nextTid + 1 },
   db.nextTid)

/-! ## Webhook reconciler (`/app/api/webhooks/fapshi/route.ts`, enhanced
revision in `src/unnamed/part_015`) -/

/-- The JSON body of a Fapshi webhook delivery, with every field name the
handler's alias extraction looks at.  Absent fields are `none`. -/
structure WebhookBody where
  transId : Option String
  transactionId : Option String
  trans_id : Option String
  id : Option String
  externalId : Option String
  external_id : Option String
  reference : Option String
  amount : Option ℚ
  status : Option String
  transaction_status : Option String
  state : Option String
  phone : Option String
  phoneNumber : Option String
  phone_number : Option String
deriving DecidableEq, Repr

/-- `body.transId || body.transactionId || body.trans_id || body.id`. -/
def WebhookBody.rawFapshiTransactionId (b : WebhookBody) : Option String :=
  jsOr b.transId (jsOr b.transactionId (jsOr b.trans_id b.id))

/-- `body.externalId || body.external_id || body.reference`. -/
def WebhookBody.rawExternalId (b : WebhookBody) : Option String :=
  jsOr b.externalId (jsOr b.external_id b.reference)

/-- `body.status || body.transaction_status || body.state`. -/
def WebhookBody.rawStatus (b : WebhookBody) : Option String :=
  jsOr b.status (jsOr b.transaction_status b.state)

/-- `rawStatus ? String(rawStatus).toLowerCase() : ''`. -/
def WebhookBody.normalizedStatus (b : WebhookBody) : String :=
  strToLower ((b.rawStatus).getD "")

/-- The success alias list of the handler's status check. -/
def successStatusAliases : List String :=
  ["successful", "success", "completed", "approved", "paid"]

/-- The failure alias list of the handler's status check. -/
def failedStatusAliases : List String :=
  ["failed", "failure", "declined", "rejected", "cancelled", "canceled"]

/-- The pending alias list of the handler's status check. -/
def pendingStatusAliases : List String :=
  ["pending", "processing", "initiated", "awaiting"]

/-- `isSuccess` of the handler. -/
def isSuccessStatus (s : String) : Bool := successStatusAliases.contains s

/-- `isFailed` of the handler. -/
def isFailedStatus (s : String) : Bool := failedStatusAliases.contains s

/-- `isPending` of the handler. -/
def isPendingStatus (s : String) : Bool := pendingStatusAliases.contains s

/-- The distinct responses the webhook handler can produce. -/
inductive WebhookOutcome where
  /-- 400: `!externalId` after alias extraction. -/
  | badRequestMissingExternalId
  /-- 400: `!normalizedStatus` after alias extraction. -/
  | badRequestMissingStatus
  /-- 200: no Transaction with this `externalId`; acknowledged so the gateway
  does not retry. -/
  | txNotFound
  /-- 200: the Transaction is no longer `Pending`; duplicate ignored. -/
  | alreadyProcessed (current : TxStatus)
  /-- 200: wallet credited and Transaction marked `Success`. -/
  | credited (newBalance : ℚ)
  /-- 200: Transaction marked `Failed`, no balance change. -/
  | markedFailed
  /-- 200: status still pending, no state change. -/
  | stillPending
  /-- 200: unrecognized status, no state change. -/
  | unknownStatus (normalized : String)
  /-- 500: the passenger referenced by the Transaction does not exist
  (the handler throws). -/
  | internalError
deriving DecidableEq, Repr

/-- HTTP status code of each webhook outcome. -/
def WebhookOutcome.httpStatus : WebhookOutcome → ℕ
  | .badRequestMissingExternalId => 400
  | .badRequestMissingStatus => 400
  | .internalError => 500
  | _ => 200

/-- The webhook `POST` handler of `src/unnamed/part_015` (third document).
Steps match the source: alias extraction, required-field validation, lookup by
`externalId`, the `Pending` idempotency gate, then the status-bucket dispatch.
On success it increments the passenger wallet by the *Transaction's* amount
(`$inc: { wallet: transaction.amount }`) and saves the Transaction as
`Success` with the gateway id; on failure it saves the Transaction as
`Failed`; pending and unrecognized statuses change nothing. -/
def webhookPOST (b : WebhookBody) (db : DB) : WebhookOutcome × DB :=
  if strFalsy b.rawExternalId then (.badRequestMissingExternalId, db)
  else if b.normalizedStatus == "" then (.badRequestMissingStatus, db)
  else
    let xid := b.rawExternalId.getD ""
    match db.transactions.find? (fun t => t.externalId == some xid) with
    | none => (.txNotFound, db)
    | some t =>
      if t.status ≠ .Pending then (.alreadyProcessed t.status, db)
      else
        let ns := b.normalizedStatus
        if isSuccessStatus ns then
          match db.passengers.find? (fun p => p.pid == t.userId) with
          | none => (.internalError, db)
          | some p =>
            let db1 := { db with
              passengers := updateFirst (fun x => x.pid == t.userId)
                (fun x => { x with wallet := x.wallet + t.amount }) db.passengers }
            let saved := { t with
              status := TxStatus.Success
              fapshiTransactionId := b.rawFapshiTransactionId }
            let db2 := { db1 with
              transactions := updateFirst (fun u => u.externalId == some xid)
                (fun _ => saved) db1.transactions }
            (.credited (p.wallet + t.amount), db2)
        else if isFailedStatus ns then
          let saved := { t with
            status := TxStatus.Failed
            fapshiTransactionId := b.rawFapshiTransactionId }
          (.markedFailed,
           { db with
              transactions := updateFirst (fun u => u.externalId == some xid)
                (fun _ => saved) db.transactions })
        else if isPendingStatus ns then (.stillPending, db)
        else (.unknownStatus ns, db)

/-! ## Passenger-to-driver transfer (`/app/api/payments/pay/route.ts`,
final revision) -/

/-- The `amount` field of the pay request body as the handler sees it.
`missing` covers a falsy value (absent, `null`, the empty string, the number
`0`); `nan` a truthy value whose `Number(...)` conversion is `NaN`; `num q` a
truthy value whose `Number(...)` conversion is the number `q`. -/
inductive JsAmount where
  | missing
  | nan
  | num (q : ℚ)
deriving DecidableEq, Repr

/-- Truthiness of the `amount` field (`!amount`). -/
def JsAmount.falsy : JsAmount → Bool
  | .missing => true
  | _ => false

/-- `Number(amount)`: `none` is `NaN`. -/
def JsAmount.toNumber : JsAmount → Option ℚ
  | .missing => some 0
  | .nan => none
  | .num q => some q

/-- The JSON body of a pay request: `{ driverId, amount, pin }`. -/
structure PayRequest where
  driverId : Option String
  amount : JsAmount
  pin : Option String
deriving DecidableEq, Repr

/-- The distinct responses of the pay handler (after authentication). -/
inductive PayResult where
  /-- 400 `Données manquantes`: a falsy `driverId`, `amount` or `pin`. -/
  | missingData
  /-- 400 `Montant invalide. Minimum: 150 Units`. -/
  | invalidAmount
  /-- 404 `Passager non trouvé`. -/
  | passengerNotFound
  /-- 401 `Code PIN incorrect`. -/
  | pinIncorrect
  /-- 400 `Solde insuffisant`. -/
  | insufficientBalance
  /-- 404 `Chauffeur non trouvé`. -/
  | driverNotFound
  /-- 200: payment applied; carries `newBalance` and `amount` of the
  response body. -/
  | paid (newBalance : ℚ) (amount : ℚ)
  /-- 500 `Une erreur est survenue`: an exception escaped to the catch block. -/
  | serverError
deriving DecidableEq, Repr

/-- `mongoose.Types.ObjectId.isValid` on a string: 24 hexadecimal
characters. -/
def isValidObjectId (s : String) : Bool :=
  s.length == 24 &&
    s.data.all (fun c => c.isDigit || ('a' ≤ c && c ≤ 'f') || ('A' ≤ c && c ≤ 'F'))

/-- Step 7 of the pay handler: the three-stage driver lookup.  The raw id is
trimmed and upper-cased; then (a) `findById` when it is a valid ObjectId
(ObjectId comparison is hexadecimal, hence case-insensitive), (b) a scan of at
most 100 drivers comparing the upper-cased first 8 characters of `_id`,
(c) `findOne({ authId })` against the cleaned id. -/
def findDriver (driverId : String) (drivers : List Driver) : Option Driver :=
  let cleanId := strToUpper (strTrim driverId)
  let byObjectId :=
    if isValidObjectId cleanId then
      drivers.find? (fun d => strToUpper d.did == cleanId)
    else none
  match byObjectId with
  | some d => some d
  | none =>
    match (drivers.take 100).find? (fun d => strToUpper (d.did.take 8) == cleanId) with
    | some d => some d
    | none => drivers.find? (fun d => d.authId == cleanId)

/-- Outcome of the check phase of the pay handler (steps 2–7, everything
before the first write): either an error response, or the loaded passenger
and driver documents plus the validated amount. -/
inductive PayCheck where
  | err (e : PayResult)
  | go (p : Passenger) (d : Driver) (q : ℚ)
deriving DecidableEq, Repr

/-- Steps 2–7 of the pay handler: body validation (`!driverId || !amount ||
!pin`, then `isNaN(paymentAmount) || paymentAmount < 150`), passenger lookup
by the session's `authId`, `comparePin`, the balance check
`passenger.wallet < paymentAmount`, and the driver lookup. -/
def payChecks (authId : String) (r : PayRequest) (db : DB) : PayCheck :=
  if strFalsy r.driverId || r.amount.falsy || strFalsy r.pin then .err .missingData
  else
    match r.amount.toNumber with
    | none => .err .invalidAmount
    | some q =>
      if q < 150 then .err .invalidAmount
      else
        match db.passengers.find? (fun p => p.authId == authId) with
        | none => .err .passengerNotFound
        | some p =>
          if r.pin ≠ some p.pin then .err .pinIncorrect
          else if p.wallet < q then .err .insufficientBalance
          else
            match findDriver (r.driverId.getD "") db.drivers with
            | none => .err .driverNotFound
            | some d => .go p d q

/-- The `notes` string of the two created Transaction records. -/
def payNote (p : Passenger) (d : Driver) : String :=
  "Paiement de " ++ p.firstName ++ " " ++ p.lastName ++ " à " ++
    d.firstName ++ " " ++ d.lastName

/-- The passenger (debit) Transaction record created by step 9. -/
def payDebitTx (tid : ℕ) (p : Passenger) (q : ℚ) (note : String) : Transaction :=
  { tid := tid, userId := p.pid, userType := .Passenger, type := .Payment,
    status := .Success, amount := q, method := "Internal",
    fapshiTransactionId := none, externalId := none,
    phoneNumber := p.phoneNumber, notes := some note }

/-- The driver (credit) Transaction record created by step 9. -/
def payCreditTx (tid : ℕ) (d : Driver) (q : ℚ) (note : String) : Transaction :=
  { tid := tid, userId := d.did, userType := .Driver, type := .Payment,
    status := .Success, amount := q, method := "Internal",
    fapshiTransactionId := none, externalId := none,
    phoneNumber := d.phoneNumber, notes := some note }

/-- Steps 8–9 of the pay handler, as the sequence of the four store writes in
source order, applying only the first `n` (the handler awaits each in turn and
has no enclosing transaction and no rollback; `n < 4` is the state left behind
when the `(n+1)`-th write throws, `n = 4` the complete run):
1. `passenger.wallet -= paymentAmount; await passenger.save()`
2. `driver.availableBalance = (driver.availableBalance or 0) + paymentAmount;
   await driver.save()`
3. `await Transaction.create(debit record)`
4. `await Transaction.create(credit record)` -/
def payMutate (p : Passenger) (d : Driver) (q : ℚ) (n : ℕ) (db : DB) : DB :=
  let savedP := { p with wallet := p.wallet - q }
  let db1 :=
    if 1 ≤ n then
      { db with passengers :=
          updateFirst (fun x => x.pid == p.pid) (fun _ => savedP) db.passengers }
    else db
  let savedD := { d with availableBalance := some (d.availableBalance.getD 0 + q) }
  let db2 :=
    if 2 ≤ n then
      { db1 with drivers :=
          updateFirst (fun x => x.did == d.did) (fun _ => savedD) db1.drivers }
    else db1
  let note := payNote p d
  let db3 := if 3 ≤ n then (db2.createTx (fun tid => payDebitTx tid p q note)).1 else db2
  let db4 := if 4 ≤ n then (db3.createTx (fun tid => payCreditTx tid d q note)).1 else db3
  db4

/-- The pay `POST` handler (complete, exception-free run): the check phase,
then all four writes, then the success response carrying the passenger's new
balance. -/
def payPOST (authId : String) (r : PayRequest) (db : DB) : PayResult × DB :=
  match payChecks authId r db with
  | .err e => (e, db)
  | .go p d q => (.paid (p.wallet - q) q, payMutate p d q 4 db)

/-- The pay `POST` handler when the `(n+1)`-th of the four writes throws
(`n < 4`): the catch block returns 500 and performs no compensating write, so
exactly the first `n` writes remain applied. -/
def payPOSTCrashed (authId : String) (r : PayRequest) (db : DB) (n : ℕ) :
    PayResult × DB :=
  match payChecks authId r db with
  | .err e => (e, db)
  | .go p d q => (.serverError, payMutate p d q (min n 4) db)

/-! ## Recharge initiation (`/app/api/payments/recharge/route.ts`, second
revision) -/

/-- The recharge request body after `rechargeSchema` validation: a numeric
amount, a payment method and the MoMo phone number. -/
structure RechargeRequest where
  amount : ℚ
  method : String
  rechargePhoneNumber : String
deriving DecidableEq, Repr

/-- The result of the outbound Fapshi `direct-pay` call, as the handler
observes it: an accepted request carrying `transId`, a non-`ok` HTTP
response, or a thrown transport/parse error. -/
inductive GatewayResult where
  | accepted (transId : String)
  | httpError
  | transportError
deriving DecidableEq, Repr

/-- The `externalId` generated for a recharge:
`` `recharge-${Date.now()}-${passengerId}` `` (`now` is the clock reading). -/
def rechargeXid (now : ℕ) (passengerId : String) : String :=
  "recharge-" ++ toString now ++ "-" ++ passengerId

/-- The `Pending` Recharge Transaction document created before the gateway
call. -/
def rechargePendingTx (tid : ℕ) (p : Passenger) (r : RechargeRequest)
    (xid : String) : Transaction :=
  { tid := tid, userId := p.pid, userType := .Passenger, type := .Recharge,
    status := .Pending, amount := r.amount, method := r.method,
    fapshiTransactionId := none, externalId := some xid,
    phoneNumber := r.rechargePhoneNumber, notes := none }

/-- Steps 3–5a of the recharge handler: load the passenger, create the
`Pending` Transaction, and issue the outbound gateway call (which is awaited:
the handler is suspended at this point).  Returns the new store and the `_id`
of the created Transaction, or `none` when the passenger does not exist. -/
def rechargeBegin (authId : String) (now : ℕ) (r : RechargeRequest) (db : DB) :
    Option (DB × ℕ) :=
  match db.passengers.find? (fun p => p.authId == authId) with
  | none => none
  | some p => some (db.createTx (fun tid => rechargePendingTx tid p r (rechargeXid now p.pid)))

/-- Step 6 of the recharge handler when the gateway accepted:
`Transaction.findByIdAndUpdate(transactionId, { fapshiTransactionId })`. -/
def rechargeSettleOk (tid : ℕ) (gatewayId : String) (db : DB) : DB :=
  { db with
      transactions := updateFirst (fun t => t.tid == tid)
        (fun t => { t with fapshiTransactionId := some gatewayId }) db.transactions }

/-- The failure path of the recharge handler (`!fapshiResponse.ok`, and the
inner catch around the gateway call):
`Transaction.findByIdAndUpdate(transactionId, { status: 'Failed' })`.
The update is *unconditional*: it does not check the Transaction's current
status.  (The `!ok` branch runs it and then throws into the inner catch,
which runs it a second time; the second write is identical.) -/
def rechargeSettleFail (tid : ℕ) (db : DB) : DB :=
  { db with
      transactions := updateFirst (fun t => t.tid == tid)
        (fun t => { t with status := TxStatus.Failed }) db.transactions }

/-- The distinct responses of the recharge handler (after authentication and
body validation). -/
inductive RechargeResult where
  /-- 404 `Passager non trouvé`. -/
  | passengerNotFound
  /-- 200: the gateway accepted; carries `transId` and the Transaction id. -/
  | started (transId : String) (transactionId : ℕ)
  /-- 500: the gateway rejected or the call threw; the Transaction was marked
  `Failed`. -/
  | gatewayFailed
deriving DecidableEq, Repr

/-- The recharge `POST` handler run to completion with gateway result `gw`
(the sequential composition of `rechargeBegin` and the settle step). -/
def rechargePOST (authId : String) (now : ℕ) (r : RechargeRequest)
    (gw : GatewayResult) (db : DB) : RechargeResult × DB :=
  match rechargeBegin authId now r db with
  | none => (.passengerNotFound, db)
  | some (db1, tid) =>
    match gw with
    | .accepted gatewayId => (.started gatewayId tid, rechargeSettleOk tid gatewayId db1)
    | .httpError => (.gatewayFailed, rechargeSettleFail tid db1)
    | .transportError => (.gatewayFailed, rechargeSettleFail tid db1)

/-! ## The system as a whole: interleaving of the handlers

Each HTTP handler runs concurrently with the others and yields at every
`await`; only the individual store operations (a `findOne`, a
`findOneAndUpdate`, a `save`, a `create`) are atomic.  The pay handler is
kept as one step: it performs no status update at all (it only appends fresh
records), so its internal suspension points cannot produce a status
transition.  The two handlers whose suspension points matter for the
Transaction state machine are split at their `await`s:

* the recharge handler is suspended at the outbound gateway call *between*
  creating its `Pending` Transaction and settling it (`Sys.inflight` records
  these suspended handlers), and its failure settle is an unconditional
  `findByIdAndUpdate { status: 'Failed' }`;
* the webhook handler reads its `Pending` gate with `await
  Transaction.findOne`, then (success branch) runs `await
  Passenger.findOneAndUpdate` to credit the wallet, then runs `await
  transaction.save()` — the save writes the in-memory document, with the
  branch's terminal status, back by `_id` without re-checking the stored
  status.  `Sys.jobs` records the suspended webhook handlers together with
  the in-memory document each read at its gate.

A webhook delivery that performs no store write (invalid payload, unknown
key, non-`Pending` gate, pending or unrecognized status) only reads, so its
interleaving is trivial and it is one step. -/

/-- The continuation of a webhook handler suspended between two of its
`await`s: `credit` is about to run the wallet `findOneAndUpdate` of the
success branch; `saveSuccess`/`saveFailed` are about to run
`transaction.save()` with the branch's terminal status.  `doc` is the
in-memory Transaction document read at the gate, `gid` the delivery's
extracted gateway transaction id. -/
inductive WebhookJob where
  | credit (doc : Transaction) (gid : Option String)
  | saveSuccess (doc : Transaction) (gid : Option String)
  | saveFailed (doc : Transaction) (gid : Option String)
deriving DecidableEq, Repr

/-- `Passenger.findOneAndUpdate({ _id }, { $inc: { wallet: amt } })`. -/
def incWallet (pid : String) (amt : ℚ) (db : DB) : DB :=
  { db with
      passengers := updateFirst (fun x => x.pid == pid)
        (fun x => { x with wallet := x.wallet + amt }) db.passengers }

/-- `transaction.save()` of the in-memory document `doc` carrying terminal
status `st` and gateway id `gid`: a whole-document write by `_id` that does
not re-read or re-check the stored status. -/
def saveTxStatus (doc : Transaction) (st : TxStatus) (gid : Option String)
    (db : DB) : DB :=
  { db with
      transactions := updateFirst (fun u => u.tid == doc.tid)
        (fun _ => { doc with status := st, fapshiTransactionId := gid })
        db.transactions }

/-- The system state: the store, the recharge handlers suspended at the
gateway call, and the webhook handlers suspended between their `await`s. -/
structure Sys where
  db : DB
  inflight : List ℕ
  jobs : List WebhookJob
deriving DecidableEq, Repr

/-- The kind of an atomic step, used to attribute status transitions to the
operation performing them. -/
inductive OpKind where
  | payOp
  | webhookAckOp
  | webhookGateOp
  | webhookCreditOp
  | webhookCreditMissingOp
  | webhookSaveOp
  | rechargeBeginOp
  | rechargeOkOp
  | rechargeFailOp
deriving DecidableEq, Repr

/-- One atomic step of the interleaved system, labelled with its kind. -/
inductive StepL : OpKind → Sys → Sys → Prop where
  /-- A complete pay request (no status update, only appends). -/
  | pay (authId : String) (r : PayRequest) (s : Sys) :
      StepL .payOp s ⟨(payPOST authId r s.db).2, s.inflight, s.jobs⟩
  /-- A webhook delivery that performs no store write at all (invalid
  payload, unknown key, non-`Pending` gate, pending or unrecognized
  status). -/
  | webhookAck (b : WebhookBody) (s : Sys) (h : (webhookPOST b s.db).2 = s.db) :
      StepL .webhookAckOp s s
  /-- The gate read of a success delivery: `await Transaction.findOne` found
  a `Pending` document; the handler is now suspended before the wallet
  update. -/
  | webhookGateSuccess (b : WebhookBody) (t : Transaction) (s : Sys)
      (hex : strFalsy b.rawExternalId = false)
      (hns : b.normalizedStatus ≠ "")
      (hfind : s.db.transactions.find?
          (fun u => u.externalId == some (b.rawExternalId.getD "")) = some t)
      (hpend : t.status = .Pending)
      (hsucc : isSuccessStatus b.normalizedStatus = true) :
      StepL .webhookGateOp s
        ⟨s.db, s.inflight, .credit t b.rawFapshiTransactionId :: s.jobs⟩
  /-- The gate read of a failure delivery. -/
  | webhookGateFailed (b : WebhookBody) (t : Transaction) (s : Sys)
      (hex : strFalsy b.rawExternalId = false)
      (hns : b.normalizedStatus ≠ "")
      (hfind : s.db.transactions.find?
          (fun u => u.externalId == some (b.rawExternalId.getD "")) = some t)
      (hpend : t.status = .Pending)
      (hfail : isFailedStatus b.normalizedStatus = true) :
      StepL .webhookGateOp s
        ⟨s.db, s.inflight, .saveFailed t b.rawFapshiTransactionId :: s.jobs⟩
  /-- The wallet credit of a suspended success delivery: `await
  Passenger.findOneAndUpdate` increments by the document's amount; the
  handler is now suspended before the save. -/
  | webhookCredit (t : Transaction) (gid : Option String) (s : Sys)
      (p : Passenger) (hjob : WebhookJob.credit t gid ∈ s.jobs)
      (hp : s.db.passengers.find? (fun x => x.pid == t.userId) = some p) :
      StepL .webhookCreditOp s
        ⟨incWallet t.userId t.amount s.db, s.inflight,
         .saveSuccess t gid :: s.jobs.erase (.credit t gid)⟩
  /-- The wallet credit when the passenger does not exist: the handler
  throws and dies; no write, and the save never runs. -/
  | webhookCreditMissing (t : Transaction) (gid : Option String) (s : Sys)
      (hjob : WebhookJob.credit t gid ∈ s.jobs)
      (hp : s.db.passengers.find? (fun x => x.pid == t.userId) = none) :
      StepL .webhookCreditMissingOp s
        ⟨s.db, s.inflight, s.jobs.erase (.credit t gid)⟩
  /-- The terminal save of a success delivery: `await transaction.save()`
  writes the in-memory document back with status `Success`, whatever the
  stored status has become meanwhile. -/
  | webhookSaveSuccess (t : Transaction) (gid : Option String) (s : Sys)
      (hjob : WebhookJob.saveSuccess t gid ∈ s.jobs) :
      StepL .webhookSaveOp s
        ⟨saveTxStatus t .Success gid s.db, s.inflight,
         s.jobs.erase (.saveSuccess t gid)⟩
  /-- The terminal save of a failure delivery. -/
  | webhookSaveFailed (t : Transaction) (gid : Option String) (s : Sys)
      (hjob : WebhookJob.saveFailed t gid ∈ s.jobs) :
      StepL .webhookSaveOp s
        ⟨saveTxStatus t .Failed gid s.db, s.inflight,
         s.jobs.erase (.saveFailed t gid)⟩
  /-- The first half of a recharge request: create the `Pending` Transaction
  and issue the gateway call. -/
  | rechargeBeginStep (authId : String) (now : ℕ) (r : RechargeRequest)
      (s : Sys) (db' : DB) (tid : ℕ)
      (h : rechargeBegin authId now r s.db = some (db', tid)) :
      StepL .rechargeBeginOp s ⟨db', tid :: s.inflight, s.jobs⟩
  /-- The settle of a suspended recharge whose gateway call succeeded. -/
  | rechargeOkStep (tid : ℕ) (gatewayId : String) (s : Sys)
      (h : tid ∈ s.inflight) :
      StepL .rechargeOkOp s
        ⟨rechargeSettleOk tid gatewayId s.db, s.inflight.erase tid, s.jobs⟩
  /-- The settle of a suspended recharge whose gateway call failed: the
  unconditional `findByIdAndUpdate { status: 'Failed' }`. -/
  | rechargeFailStep (tid : ℕ) (s : Sys) (h : tid ∈ s.inflight) :
      StepL .rechargeFailOp s
        ⟨rechargeSettleFail tid s.db, s.inflight.erase tid, s.jobs⟩

/-- One atomic step of some kind. -/
def Step (s s' : Sys) : Prop := ∃ k, StepL k s s'

/-- The initial system state: given account collections, no Transactions
yet, nothing suspended. -/
def SysInit (ps : List Passenger) (ds : List Driver) : Sys :=
  ⟨⟨ps, ds, [], 0⟩, [], []⟩

/-- Reachability under handler interleaving. -/
def SysReachable (s0 s : Sys) : Prop := Relation.ReflTransGen Step s0 s

/-- The status of the Transaction with `_id` `tid` (first match, as
`findById` reads it). -/
def txStatusOf (db : DB) (tid : ℕ) : Option TxStatus :=
  (db.transactions.find? (fun t => t.tid == tid)).map (fun t => t.status)

/-! ## Observations of the store -/

/-- The wallet balance of the passenger with Mongo `_id` `pid`. -/
def walletOf (db : DB) (pid : String) : Option ℚ :=
  (db.passengers.find? (fun x => x.pid == pid)).map (fun x => x.wallet)

/-- The available balance of the driver with Mongo `_id` `did` (an absent
`availableBalance` field reads as 0, as the pay handler coerces it). -/
def driverBalanceOf (db : DB) (did : String) : Option ℚ :=
  (db.drivers.find? (fun x => x.did == did)).map (fun x => x.availableBalance.getD 0)

/-- Spec-side predicate (from the spec's words, for stating claim C7 only):
an amount is admissible when it is a positive integer. -/
def specPositiveInteger (q : ℚ) : Prop := ∃ n : ℕ, 0 < n ∧ q = (n : ℚ)

/-! ## Toolkit: `List.find?` against `updateFirst` -/

theorem updateFirst_eq_self_of_find?_none {α} (p : α → Bool) (f : α → α)
    (l : List α) (h : l.find? p = none) : updateFirst p f l = l := by
  induction l with
  | nil => rfl
  | cons x xs ih =>
    rw [List.find?_cons] at h
    split at h
    · exact absurd h (by simp)
    · simp [updateFirst, *, ih h]

theorem find?_append_left {α} (p : α → Bool) (l l' : List α) (x : α)
    (h : l.find? p = some x) : (l ++ l').find? p = some x := by
  induction l with
  | nil => simp at h
  | cons y ys ih =>
    by_cases hy : p y
    · rw [List.find?_cons_of_pos _ hy] at h
      simpa [List.cons_append, List.find?_cons_of_pos _ hy] using h
    · rw [List.find?_cons_of_neg _ hy] at h
      simp [List.cons_append, List.find?_cons_of_neg _ hy, ih h]

/-- Updating the first `p`-match by `f` and then searching with the same
predicate finds the updated element, provided the update does not change
whether the element matches. -/
theorem find?_updateFirst_self {α} (p : α → Bool) (f : α → α) (l : List α)
    (hf : ∀ x, p x → p (f x) = p x) :
    (updateFirst p f l).find? p = (l.find? p).map f := by
  induction l with
  | nil => rfl
  | cons x xs ih =>
    by_cases hx : p x
    · simp [updateFirst, hx, List.find?_cons, hf x hx]
    · simp [updateFirst, hx, List.find?_cons, ih]

/-- Searching by `_id` after an `updateFirst` whose replaced element is `t`
(an update that keeps `t`'s `_id`): either the search result is unchanged, or
the search found exactly `t` before and finds `f t` after. -/
theorem find?_tid_updateFirst (P : Transaction → Bool) (f : Transaction → Transaction)
    (ts : List Transaction) (t : Transaction) (hP : ts.find? P = some t)
    (hf : (f t).tid = t.tid) (tid : ℕ) :
    (updateFirst P f ts).find? (fun u => u.tid == tid) =
        ts.find? (fun u => u.tid == tid) ∨
    (ts.find? (fun u => u.tid == tid) = some t ∧
     (updateFirst P f ts).find? (fun u => u.tid == tid) = some (f t)) := by
  induction ts with
  | nil => simp at hP
  | cons x xs ih =>
    by_cases hPx : P x
    · have hx : x = t := by
        rw [List.find?_cons_of_pos _ hPx] at hP
        exact Option.some.inj hP
      subst hx
      by_cases h1 : x.tid == tid
      · right
        constructor
        · simp [List.find?_cons, h1]
        · have : ((f x).tid == tid) = true := by rw [hf]; exact h1
          simp [updateFirst, hPx, List.find?_cons, this]
      · left
        have h1' : ((f x).tid == tid) = false := by
          rw [hf]; exact Bool.of_not_eq_true h1
        simp [updateFirst, hPx, List.find?_cons, h1, h1', Bool.of_not_eq_true h1]
    · have hP' : xs.find? P = some t := by
        rwa [List.find?_cons_of_neg _ hPx] at hP
      by_cases h1 : x.tid == tid
      · left; simp [updateFirst, hPx, List.find?_cons, h1]
      · have h1' : (x.tid == tid) = false := Bool.of_not_eq_true h1
        rcases ih hP' with h | ⟨h2, h3⟩
        · left; simp [updateFirst, hPx, List.find?_cons, h1', h]
        · right
          constructor
          · simp [List.find?_cons, h1', h2]
          · simp [updateFirst, hPx, List.find?_cons, h1', h3]

/-! ## Concrete sample data (used by the witnesses and counterexamples) -/

/-- A passenger with wallet 1000 and PIN `1234`. -/
def samplePassengerA : Passenger :=
  { pid := "64aaaaaaaaaaaaaaaaaaaaa1", authId := "auth-passenger-a",
    firstName := "Alice", lastName := "Abanda", phoneNumber := "+237600000001",
    pin := "1234", wallet := 1000 }

/-- A driver with balance 0; reachable through the short-id lookup via
`64BBBBBB`. -/
def sampleDriverB : Driver :=
  { did := "64bbbbbbbbbbbbbbbbbbbbb2", authId := "DRIVER-B-AUTH",
    firstName := "Bob", lastName := "Biya", phoneNumber := "+237600000002",
    availableBalance := some 0 }

/-- A pay request: 400 units to driver `64bbbbbb`, correct PIN. -/
def samplePayReq : PayRequest :=
  { driverId := some "64bbbbbb", amount := .num 400, pin := some "1234" }

/-- A store holding just `samplePassengerA` and `sampleDriverB`. -/
def sampleDB : DB := ⟨[samplePassengerA], [sampleDriverB], [], 0⟩

/-- A passenger with wallet 0, used in the recharge/webhook scenarios. -/
def samplePassengerC : Passenger :=
  { pid := "64cccccccccccccccccccccc", authId := "auth-passenger-c",
    firstName := "Carla", lastName := "Choupo", phoneNumber := "+237600000003",
    pin := "0000", wallet := 0 }

/-- A recharge request of 500 units. -/
def sampleRechargeReq : RechargeRequest :=
  { amount := 500, method := "MTN", rechargePhoneNumber := "+237600000003" }

/-- The `externalId` the recharge handler generates for `samplePassengerC` at
clock reading 7. -/
def sampleXid : String := rechargeXid 7 samplePassengerC.pid

/-- A success webhook delivery for `sampleXid`. -/
def sampleWebhookBody : WebhookBody :=
  { transId := some "FAP-123", transactionId := none, trans_id := none,
    id := none, externalId := some sampleXid, external_id := none,
    reference := none, amount := some 500, status := some "successful",
    transaction_status := none, state := none, phone := none,
    phoneNumber := none, phone_number := none }


/-! ## Claim theorems -/

/-- Claim C10: when the reconciler credits an account on a success webhook,
the credited amount is the amount stored in the matched Transaction record,
never the `amount` field of the webhook payload: two deliveries that differ
only in the payload `amount` produce identical outcomes and identical store
states (in particular identical balance increments). -/
theorem c10_credit_ignores_payload_amount (b : WebhookBody) (a1 a2 : Option ℚ)
    (db : DB) :
    webhookPOST { b with amount := a1 } db = webhookPOST { b with amount := a2 } db := rfl

/-- Claim C9: a webhook payload (carrying an external id and a status) whose
`externalId` matches no Transaction is acknowledged with HTTP 200, terminates
normally, and mutates nothing. -/
theorem c9_unknown_key_acknowledged (b : WebhookBody) (db : DB) (xid : String)
    (hx : b.rawExternalId = some xid) (hx0 : xid ≠ "")
    (hs : b.normalizedStatus ≠ "")
    (hfind : db.transactions.find? (fun t => t.externalId == some xid) = none) :
    webhookPOST b db = (.txNotFound, db) ∧
      WebhookOutcome.httpStatus .txNotFound = 200 := by
  refine ⟨?_, rfl⟩
  unfold webhookPOST
  rw [hx]
  simp [strFalsy, hx0, hs, hfind]

/-- Concrete run of `c9_unknown_key_acknowledged`: the sample success payload
against an empty store. -/
theorem c9_unknown_key_acknowledged_witness :
    webhookPOST sampleWebhookBody ⟨[], [], [], 0⟩ = (.txNotFound, ⟨[], [], [], 0⟩) ∧
      WebhookOutcome.httpStatus .txNotFound = 200 :=
  c9_unknown_key_acknowledged sampleWebhookBody ⟨[], [], [], 0⟩ sampleXid
    (by decide) (by decide) (by decide) (by decide)

/-- Claim C6: a transfer request that reaches the balance check (well-formed
body, amount at least the minimum, known passenger, correct PIN) with
`passenger.wallet < amount` is rejected with the insufficient-funds error and
the store is returned unchanged: no balance moves and no Transaction record
is created. -/
theorem c6_insufficient_funds_rejected (authId : String) (r : PayRequest)
    (db : DB) (p : Passenger) (q : ℚ)
    (hd : strFalsy r.driverId = false) (hp : strFalsy r.pin = false)
    (ha : r.amount = .num q) (hq : ¬ q < 150)
    (hpass : db.passengers.find? (fun x => x.authId == authId) = some p)
    (hpin : r.pin = some p.pin)
    (hbal : p.wallet < q) :
    payPOST authId r db = (.insufficientBalance, db) := by
  unfold payPOST payChecks
  rw [ha]
  simp [hd, hp, JsAmount.falsy, JsAmount.toNumber, hq, hpass, hpin, hbal, hpin ▸ hp]

/-- Concrete run of `c6_insufficient_funds_rejected`: wallet 100 attempting a
transfer of 150. -/
theorem c6_insufficient_funds_rejected_witness :
    payPOST "auth-passenger-a"
        { driverId := some "64bbbbbb", amount := .num 150, pin := some "1234" }
        ⟨[{ samplePassengerA with wallet := 100 }], [sampleDriverB], [], 0⟩ =
      (.insufficientBalance,
        ⟨[{ samplePassengerA with wallet := 100 }], [sampleDriverB], [], 0⟩) :=
  c6_insufficient_funds_rejected "auth-passenger-a" _ _
    { samplePassengerA with wallet := 100 } 150
    (by decide) (by decide) rfl (by norm_num) (by decide) rfl (by norm_num)

/-- The complete mutation phase, written out: the saved passenger document,
the saved driver document, and the two appended Transaction records. -/
theorem payMutate_four (p : Passenger) (d : Driver) (q : ℚ) (db : DB) :
    payMutate p d q 4 db =
      { passengers := updateFirst (fun x => x.pid == p.pid)
          (fun _ => { p with wallet := p.wallet - q }) db.passengers,
        drivers := updateFirst (fun x => x.did == d.did)
          (fun _ => { d with availableBalance := some (d.availableBalance.getD 0 + q) })
          db.drivers,
        transactions := db.transactions ++
          [payDebitTx db.nextTid p q (payNote p d),
           payCreditTx (db.nextTid + 1) d q (payNote p d)],
        nextTid := db.nextTid + 2 } := by
  simp [payMutate, DB.createTx]

/-- Claim C3 (conservation): a transfer that passes every check debits the
payer by exactly the amount, credits the payee by exactly the amount, and
leaves the sum of the two balances unchanged. -/
theorem c3_conservation (authId : String) (r : PayRequest) (db : DB)
    (p : Passenger) (d : Driver) (q : ℚ)
    (hgo : payChecks authId r db = .go p d q)
    (hp : db.passengers.find? (fun x => x.pid == p.pid) = some p)
    (hd : db.drivers.find? (fun x => x.did == d.did) = some d) :
    walletOf (payPOST authId r db).2 p.pid = some (p.wallet - q) ∧
    driverBalanceOf (payPOST authId r db).2 d.did =
      some (d.availableBalance.getD 0 + q) ∧
    (walletOf (payPOST authId r db).2 p.pid).getD 0 +
        (driverBalanceOf (payPOST authId r db).2 d.did).getD 0 =
      (walletOf db p.pid).getD 0 + (driverBalanceOf db d.did).getD 0 := by
  have hwp : walletOf (payPOST authId r db).2 p.pid = some (p.wallet - q) := by
    unfold payPOST
    rw [hgo]
    dsimp only
    rw [payMutate_four]
    unfold walletOf
    dsimp only
    rw [find?_updateFirst_self _ _ _ (by intro x hx; simp_all), hp]
    rfl
  have hwd : driverBalanceOf (payPOST authId r db).2 d.did =
      some (d.availableBalance.getD 0 + q) := by
    unfold payPOST
    rw [hgo]
    dsimp only
    rw [payMutate_four]
    unfold driverBalanceOf
    dsimp only
    rw [find?_updateFirst_self _ _ _ (by intro x hx; simp_all), hd]
    rfl
  refine ⟨hwp, hwd, ?_⟩
  rw [hwp, hwd]
  unfold walletOf driverBalanceOf
  rw [hp, hd]
  simp only [Option.map_some', Option.getD_some]
  ring

/-- Concrete run of `c3_conservation`: 1000 + 0 before, 600 + 400 after. -/
theorem c3_conservation_witness :
    walletOf (payPOST "auth-passenger-a" samplePayReq sampleDB).2 samplePassengerA.pid =
        some (samplePassengerA.wallet - 400) ∧
    driverBalanceOf (payPOST "auth-passenger-a" samplePayReq sampleDB).2 sampleDriverB.did =
        some (sampleDriverB.availableBalance.getD 0 + 400) ∧
    (walletOf (payPOST "auth-passenger-a" samplePayReq sampleDB).2 samplePassengerA.pid).getD 0 +
        (driverBalanceOf (payPOST "auth-passenger-a" samplePayReq sampleDB).2 sampleDriverB.did).getD 0 =
      (walletOf sampleDB samplePassengerA.pid).getD 0 +
        (driverBalanceOf sampleDB sampleDriverB.did).getD 0 :=
  c3_conservation "auth-passenger-a" samplePayReq sampleDB
    samplePassengerA sampleDriverB 400 (by decide) (by decide) (by decide)

/-- A status recognized as success is in particular not the empty string. -/
theorem isSuccessStatus_ne_empty {s : String} (h : isSuccessStatus s = true) :
    s ≠ "" := by
  intro he
  rw [he] at h
  exact absurd h (by decide)

/-- Claim C4: a success webhook payload matching a `Pending` Transaction
credits the target account by the Transaction's amount exactly once and moves
the Transaction to `Success`, storing the gateway transaction id; delivering
the identical payload a second time is acknowledged as already processed with
no further mutation. -/
theorem c4_webhook_credits_exactly_once (b : WebhookBody) (db : DB)
    (t : Transaction) (p : Passenger) (xid : String)
    (hx : b.rawExternalId = some xid) (hx0 : xid ≠ "")
    (hsucc : isSuccessStatus b.normalizedStatus = true)
    (hfind : db.transactions.find? (fun u => u.externalId == some xid) = some t)
    (hpend : t.status = .Pending)
    (hpf : db.passengers.find? (fun x => x.pid == t.userId) = some p) :
    (webhookPOST b db).1 = .credited (p.wallet + t.amount) ∧
    walletOf (webhookPOST b db).2 t.userId = some (p.wallet + t.amount) ∧
    (webhookPOST b db).2.transactions.find? (fun u => u.externalId == some xid) =
      some { t with status := TxStatus.Success,
                    fapshiTransactionId := b.rawFapshiTransactionId } ∧
    webhookPOST b (webhookPOST b db).2 = (.alreadyProcessed .Success, (webhookPOST b db).2) := by
  have hne : b.normalizedStatus ≠ "" := isSuccessStatus_ne_empty hsucc
  have hpredt := List.find?_some hfind
  have hrun : webhookPOST b db =
      (.credited (p.wallet + t.amount),
        { db with
            passengers := updateFirst (fun x => x.pid == t.userId)
              (fun x => { x with wallet := x.wallet + t.amount }) db.passengers,
            transactions := updateFirst (fun u => u.externalId == some xid)
              (fun _ => { t with status := TxStatus.Success,
                                 fapshiTransactionId := b.rawFapshiTransactionId })
              db.transactions }) := by
    unfold webhookPOST
    rw [hx]
    simp [strFalsy, hx0, hne, hfind, hpend, hsucc, hpf]
  have hfind2 : (webhookPOST b db).2.transactions.find?
      (fun u => u.externalId == some xid) =
      some { t with status := TxStatus.Success,
                    fapshiTransactionId := b.rawFapshiTransactionId } := by
    rw [hrun]
    dsimp only
    rw [find?_updateFirst_self _ _ _ (by intro x hx'; simp only [hx']; exact hpredt),
      hfind]
    rfl
  refine ⟨by rw [hrun], ?_, hfind2, ?_⟩
  · rw [hrun]
    unfold walletOf
    dsimp only
    rw [find?_updateFirst_self _ _ _ (by intro x hx'; simp only [hx']), hpf]
    rfl
  · generalize hgen : (webhookPOST b db).2 = db2 at hfind2 ⊢
    unfold webhookPOST
    rw [hx]
    simp [strFalsy, hx0, hne, hfind2]

/-- The `Pending` recharge Transaction of the webhook scenarios. -/
def samplePendingTx : Transaction :=
  rechargePendingTx 0 samplePassengerC sampleRechargeReq sampleXid

/-- A store holding `samplePassengerC` and the pending recharge. -/
def sampleRechargeDB : DB := ⟨[samplePassengerC], [], [samplePendingTx], 1⟩

/-- Concrete run of `c4_webhook_credits_exactly_once`: the sample success
payload against the pending 500-unit recharge of a passenger with wallet 0. -/
theorem c4_webhook_credits_exactly_once_witness :
    (webhookPOST sampleWebhookBody sampleRechargeDB).1 =
        .credited (samplePassengerC.wallet + samplePendingTx.amount) ∧
    walletOf (webhookPOST sampleWebhookBody sampleRechargeDB).2 samplePendingTx.userId =
        some (samplePassengerC.wallet + samplePendingTx.amount) ∧
    (webhookPOST sampleWebhookBody sampleRechargeDB).2.transactions.find?
        (fun u => u.externalId == some sampleXid) =
      some { samplePendingTx with
              status := TxStatus.Success,
              fapshiTransactionId := sampleWebhookBody.rawFapshiTransactionId } ∧
    webhookPOST sampleWebhookBody (webhookPOST sampleWebhookBody sampleRechargeDB).2 =
      (.alreadyProcessed .Success, (webhookPOST sampleWebhookBody sampleRechargeDB).2) :=
  c4_webhook_credits_exactly_once sampleWebhookBody sampleRechargeDB
    samplePendingTx samplePassengerC sampleXid
    (by decide) (by decide) (by decide) (by decide) (by decide) (by decide)

/-- Claim C8: status normalization.  The lower-cased status is classified by
the explicit alias sets: `successful`/`completed`/`paid` land in the success
bucket only, `failed`/`declined`/`cancelled` in the failure bucket only, the
buckets are mutually exclusive, and a delivery whose status matches neither
the success nor the failure aliases (the pending aliases and everything
unrecognized) produces no state change and is answered with HTTP 200 rather
than an error. -/
theorem c8_status_normalization :
    (∀ raw : String,
      (strToLower raw = "successful" ∨ strToLower raw = "completed" ∨
          strToLower raw = "paid") →
        isSuccessStatus (strToLower raw) = true ∧
        isFailedStatus (strToLower raw) = false ∧
        isPendingStatus (strToLower raw) = false) ∧
    (∀ raw : String,
      (strToLower raw = "failed" ∨ strToLower raw = "declined" ∨
          strToLower raw = "cancelled") →
        isFailedStatus (strToLower raw) = true ∧
        isSuccessStatus (strToLower raw) = false ∧
        isPendingStatus (strToLower raw) = false) ∧
    (∀ s : String, ¬ (isSuccessStatus s = true ∧ isFailedStatus s = true)) ∧
    (∀ s : String, ¬ (isSuccessStatus s = true ∧ isPendingStatus s = true)) ∧
    (∀ s : String, ¬ (isFailedStatus s = true ∧ isPendingStatus s = true)) ∧
    (∀ (b : WebhookBody) (db : DB) (xid : String),
      b.rawExternalId = some xid → xid ≠ "" → b.normalizedStatus ≠ "" →
      isSuccessStatus b.normalizedStatus = false →
      isFailedStatus b.normalizedStatus = false →
      (webhookPOST b db).2 = db ∧ ((webhookPOST b db).1).httpStatus = 200) := by
  refine ⟨?_, ?_, ?_, ?_, ?_, ?_⟩
  · intro raw h
    rcases h with h | h | h <;> rw [h] <;> exact ⟨by decide, by decide, by decide⟩
  · intro raw h
    rcases h with h | h | h <;> rw [h] <;> exact ⟨by decide, by decide, by decide⟩
  · intro s ⟨h1, h2⟩
    simp [isSuccessStatus, successStatusAliases] at h1
    rcases h1 with h | h | h | h | h <;> rw [h] at h2 <;> exact absurd h2 (by decide)
  · intro s ⟨h1, h2⟩
    simp [isSuccessStatus, successStatusAliases] at h1
    rcases h1 with h | h | h | h | h <;> rw [h] at h2 <;> exact absurd h2 (by decide)
  · intro s ⟨h1, h2⟩
    simp [isFailedStatus, failedStatusAliases] at h1
    rcases h1 with h | h | h | h | h | h <;> rw [h] at h2 <;> exact absurd h2 (by decide)
  · intro b db xid hx hx0 hs h1 h2
    unfold webhookPOST
    rw [hx]
    rcases hf : db.transactions.find? (fun t => t.externalId == some xid) with _ | t
    · simp [hf, strFalsy, hx0, hs, WebhookOutcome.httpStatus]
    · by_cases hst : t.status = TxStatus.Pending
      · by_cases hp : isPendingStatus b.normalizedStatus = true
        · simp [hf, hst, hp, h1, h2, strFalsy, hx0, hs, WebhookOutcome.httpStatus]
        · simp [hf, hst, hp, h1, h2, strFalsy, hx0, hs, WebhookOutcome.httpStatus]
      · simp [hf, hst, strFalsy, hx0, hs, WebhookOutcome.httpStatus]

/-- Concrete runs of `c8_status_normalization`: the alias `Successful` is
classified as success, and an unrecognized status (`WEIRD`) against the
pending sample recharge changes nothing and is acknowledged with 200. -/
theorem c8_status_normalization_witness :
    (isSuccessStatus (strToLower "Successful") = true ∧
     isFailedStatus (strToLower "Successful") = false ∧
     isPendingStatus (strToLower "Successful") = false) ∧
    ((webhookPOST { sampleWebhookBody with status := some "WEIRD" } sampleRechargeDB).2 =
        sampleRechargeDB ∧
     ((webhookPOST { sampleWebhookBody with status := some "WEIRD" }
        sampleRechargeDB).1).httpStatus = 200) :=
  ⟨c8_status_normalization.1 "Successful" (by decide),
   c8_status_normalization.2.2.2.2.2
     { sampleWebhookBody with status := some "WEIRD" } sampleRechargeDB sampleXid
     (by decide) (by decide) (by decide) (by decide) (by decide)⟩

/-- Claim C7 (amended): with a well-formed body (truthy `driverId` and `pin`),
a non-numeric amount or a numeric amount below 150 is rejected with the
amount-validation error before any persistence; but integrality is *not*
enforced — any numeric amount of at least 150, fractional included, passes
the amount validation. -/
theorem c7_amended_amount_validation (authId : String) (r : PayRequest) (db : DB)
    (hd : strFalsy r.driverId = false) (hp : strFalsy r.pin = false) :
    (r.amount = .nan → payPOST authId r db = (.invalidAmount, db)) ∧
    (∀ q : ℚ, r.amount = .num q → q < 150 →
      payPOST authId r db = (.invalidAmount, db)) ∧
    (∀ q : ℚ, r.amount = .num q → ¬ q < 150 →
      (payPOST authId r db).1 ≠ .invalidAmount ∧
      (payPOST authId r db).1 ≠ .missingData) := by
  refine ⟨?_, ?_, ?_⟩
  · intro ha
    unfold payPOST payChecks
    rw [ha]
    simp [hd, hp, JsAmount.falsy, JsAmount.toNumber]
  · intro q ha hq
    unfold payPOST payChecks
    rw [ha]
    simp [hd, hp, JsAmount.falsy, JsAmount.toNumber, hq]
  · intro q ha hq
    unfold payPOST payChecks
    rw [ha]
    rcases hfp : db.passengers.find? (fun x => x.authId == authId) with _ | p
    · simp [hd, hp, JsAmount.falsy, JsAmount.toNumber, hq, hfp]
    · by_cases hpin : r.pin = some p.pin
      · by_cases hbal : p.wallet < q
        · simp [hd, hp, JsAmount.falsy, JsAmount.toNumber, hq, hfp, hpin, hbal,
            hpin ▸ hp]
        · rcases hfd : findDriver (r.driverId.getD "") db.drivers with _ | d
          · simp [hd, hp, JsAmount.falsy, JsAmount.toNumber, hq, hfp, hpin, hbal,
              hfd, hpin ▸ hp]
          · simp [hd, hp, JsAmount.falsy, JsAmount.toNumber, hq, hfp, hpin, hbal,
              hfd, hpin ▸ hp]
      · simp [hd, hp, JsAmount.falsy, JsAmount.toNumber, hq, hfp, hpin]

/-- Concrete runs of `c7_amended_amount_validation`: amount 100 (below the
minimum) is rejected with no persistence. -/
theorem c7_amended_amount_validation_witness :
    payPOST "auth-passenger-a"
        { driverId := some "64bbbbbb", amount := .num 100, pin := some "1234" }
        sampleDB =
      (.invalidAmount, sampleDB) :=
  (c7_amended_amount_validation "auth-passenger-a"
      { driverId := some "64bbbbbb", amount := .num 100, pin := some "1234" }
      sampleDB (by decide) (by decide)).2.1 100 rfl (by norm_num)

section ConcreteRatEval

attribute [local semireducible] Rat.add Rat.sub Rat.mul Rat.inv

/-- Counterexample to claim C7 as stated: the fractional amount `150.5` is
*not* a positive integer, yet the transfer is not rejected — it runs to
completion, moves balances and creates Transaction records.  (The handler
only checks `isNaN(paymentAmount) || paymentAmount < 150`.) -/
theorem c7_counterexample_fractional_amount_accepted :
    ¬ (∀ (authId : String) (r : PayRequest) (db : DB) (q : ℚ),
        r.amount = .num q → (q < 150 ∨ ¬ specPositiveInteger q) →
        ((payPOST authId r db).1 = .missingData ∨
            (payPOST authId r db).1 = .invalidAmount) ∧
          (payPOST authId r db).2 = db) := by
  intro hclaim
  have hnotint : ¬ specPositiveInteger ((301 : ℚ) / 2) := by
    rintro ⟨n, -, hn⟩
    have hden : ((301 : ℚ) / 2).den = 1 := by rw [hn]; exact Rat.den_natCast n
    rw [show ((301 : ℚ) / 2).den = 2 from by decide] at hden
    exact absurd hden (by decide)
  have h := hclaim "auth-passenger-a"
    { driverId := some "64bbbbbb", amount := .num ((301 : ℚ) / 2), pin := some "1234" }
    sampleDB ((301 : ℚ) / 2) rfl (Or.inr hnotint)
  rcases h.1 with h1 | h1 <;> exact absurd h1 (by decide)

/-- Counterexample to claim C1 as stated: the pay handler has no idempotency
lookup (the duplicate check was removed from the source), so replaying an
identical transfer request is *not* answered with the recorded outcome of the
first call: the second call debits and credits again, creates two more
Transaction records, and returns a different result. -/
theorem c1_counterexample_replay_not_idempotent :
    ¬ (∀ (authId : String) (r : PayRequest) (db : DB),
        payPOST authId r (payPOST authId r db).2 = payPOST authId r db) := by
  intro hclaim
  exact absurd (hclaim "auth-passenger-a" samplePayReq sampleDB) (by decide)

/-- The three-stage driver lookup on a one-driver store only reads `did` and
`authId`: changing the driver's balance does not change whether it is
found. -/
theorem findDriver_singleton_congr (s : String) (d d' : Driver)
    (hdid : d'.did = d.did) (hauth : d'.authId = d.authId)
    (h : findDriver s [d] = some d) : findDriver s [d'] = some d' := by
  unfold findDriver at h ⊢
  rw [List.take_of_length_le (by simp)] at h ⊢
  simp only [List.find?_singleton, hdid, hauth] at h ⊢
  split_ifs at h ⊢ <;> simp_all

/-- Claim C1 (amended): the pay handler performs no idempotency lookup — the
duplicate check was removed — so replaying an identical transfer request
against a store holding the payer and the payee mutates the store a second
time: the payer is debited again (wallet down by twice the amount after the
replay), two further `Success` Transaction records are appended (four in
total), and the second call returns a different result (the further-reduced
balance) instead of the first call's recorded outcome. -/
theorem c1_amended_replay_mutates_again (p : Passenger) (d : Driver)
    (r : PayRequest) (ts : List Transaction) (k : ℕ) (q : ℚ)
    (hd : strFalsy r.driverId = false) (hp : strFalsy r.pin = false)
    (ha : r.amount = .num q) (hq : ¬ q < 150)
    (hpin : r.pin = some p.pin)
    (hbal : 2 * q ≤ p.wallet)
    (hfd : findDriver (r.driverId.getD "") [d] = some d) :
    (payPOST p.authId r ⟨[p], [d], ts, k⟩).1 = .paid (p.wallet - q) q ∧
    (payPOST p.authId r (payPOST p.authId r ⟨[p], [d], ts, k⟩).2).1 =
      .paid (p.wallet - 2 * q) q ∧
    walletOf (payPOST p.authId r (payPOST p.authId r ⟨[p], [d], ts, k⟩).2).2 p.pid =
      some (p.wallet - 2 * q) ∧
    (payPOST p.authId r
        (payPOST p.authId r ⟨[p], [d], ts, k⟩).2).2.transactions.length =
      ts.length + 4 ∧
    (payPOST p.authId r (payPOST p.authId r ⟨[p], [d], ts, k⟩).2).1 ≠
      (payPOST p.authId r ⟨[p], [d], ts, k⟩).1 := by
  have h150 : (150 : ℚ) ≤ q := not_lt.mp hq
  have hq0 : (0 : ℚ) < q := by linarith
  have hb1 : ¬ p.wallet < q := by push_neg; linarith
  have hb2 : ¬ p.wallet - q < q := by push_neg; linarith
  have hchk1 : payChecks p.authId r ⟨[p], [d], ts, k⟩ = .go p d q := by
    unfold payChecks
    rw [ha]
    simp [hd, hp, JsAmount.falsy, JsAmount.toNumber, hq, List.find?_singleton,
      hpin, hb1, hfd, hpin ▸ hp]
  have hrun1 : payPOST p.authId r ⟨[p], [d], ts, k⟩ =
      (.paid (p.wallet - q) q,
        ⟨[{ p with wallet := p.wallet - q }],
         [{ d with availableBalance := some (d.availableBalance.getD 0 + q) }],
         ts ++ [payDebitTx k p q (payNote p d), payCreditTx (k + 1) d q (payNote p d)],
         k + 2⟩) := by
    unfold payPOST
    rw [hchk1]
    dsimp only
    rw [payMutate_four]
    simp [updateFirst]
  have hfd2 : findDriver (r.driverId.getD "")
      [{ d with availableBalance := some (d.availableBalance.getD 0 + q) }] =
      some { d with availableBalance := some (d.availableBalance.getD 0 + q) } :=
    findDriver_singleton_congr (r.driverId.getD "") d
      { d with availableBalance := some (d.availableBalance.getD 0 + q) } rfl rfl hfd
  have hchk2 : payChecks p.authId r
      ⟨[{ p with wallet := p.wallet - q }],
       [{ d with availableBalance := some (d.availableBalance.getD 0 + q) }],
       ts ++ [payDebitTx k p q (payNote p d), payCreditTx (k + 1) d q (payNote p d)],
       k + 2⟩ =
      .go { p with wallet := p.wallet - q }
        { d with availableBalance := some (d.availableBalance.getD 0 + q) } q := by
    unfold payChecks
    rw [ha]
    simp [hd, hp, JsAmount.falsy, JsAmount.toNumber, hq, List.find?_singleton,
      hpin, hb2, hfd2, hpin ▸ hp]
  have hrun2 : payPOST p.authId r (payPOST p.authId r ⟨[p], [d], ts, k⟩).2 =
      (.paid (p.wallet - q - q) q,
        ⟨[{ p with wallet := p.wallet - q - q }],
         [{ d with availableBalance := some (d.availableBalance.getD 0 + q + q) }],
         (ts ++ [payDebitTx k p q (payNote p d),
                 payCreditTx (k + 1) d q (payNote p d)]) ++
           [payDebitTx (k + 2) p q (payNote p d),
            payCreditTx (k + 3) d q (payNote p d)],
         k + 4⟩) := by
    rw [hrun1]
    dsimp only
    unfold payPOST
    rw [hchk2]
    dsimp only
    rw [payMutate_four]
    simp [updateFirst, payNote, payDebitTx, payCreditTx]
  have e1 : p.wallet - q - q = p.wallet - 2 * q := by ring
  refine ⟨by rw [hrun1], ?_, ?_, ?_, ?_⟩
  · rw [hrun2, e1]
  · rw [hrun2]
    unfold walletOf
    simp [List.find?_singleton, e1]
  · rw [hrun2]
    simp [List.length_append]
  · rw [hrun2, hrun1]
    dsimp only
    intro hcontra
    injection hcontra with h1 h2
    linarith

/-- Concrete run of `c1_amended_replay_mutates_again`: wallet 1000, amount
400; after the replay the wallet is 200, not 600, and four Transaction
records exist. -/
theorem c1_amended_replay_mutates_again_witness :
    (payPOST samplePassengerA.authId samplePayReq
        ⟨[samplePassengerA], [sampleDriverB], [], 0⟩).1 =
      .paid (samplePassengerA.wallet - 400) 400 ∧
    (payPOST samplePassengerA.authId samplePayReq
        (payPOST samplePassengerA.authId samplePayReq
          ⟨[samplePassengerA], [sampleDriverB], [], 0⟩).2).1 =
      .paid (samplePassengerA.wallet - 2 * 400) 400 ∧
    walletOf (payPOST samplePassengerA.authId samplePayReq
        (payPOST samplePassengerA.authId samplePayReq
          ⟨[samplePassengerA], [sampleDriverB], [], 0⟩).2).2 samplePassengerA.pid =
      some (samplePassengerA.wallet - 2 * 400) ∧
    (payPOST samplePassengerA.authId samplePayReq
        (payPOST samplePassengerA.authId samplePayReq
          ⟨[samplePassengerA], [sampleDriverB], [], 0⟩).2).2.transactions.length =
      List.length ([] : List Transaction) + 4 ∧
    (payPOST samplePassengerA.authId samplePayReq
        (payPOST samplePassengerA.authId samplePayReq
          ⟨[samplePassengerA], [sampleDriverB], [], 0⟩).2).1 ≠
      (payPOST samplePassengerA.authId samplePayReq
        ⟨[samplePassengerA], [sampleDriverB], [], 0⟩).1 :=
  c1_amended_replay_mutates_again samplePassengerA sampleDriverB samplePayReq [] 0 400
    (by decide) (by decide) rfl (by norm_num) rfl (by decide) (by decide)

/-- The mutation phase stopped after its first write: only the payer's
balance has moved. -/
theorem payMutate_one (p : Passenger) (d : Driver) (q : ℚ) (db : DB) :
    payMutate p d q 1 db =
      { db with
          passengers := updateFirst (fun x => x.pid == p.pid)
            (fun _ => { p with wallet := p.wallet - q }) db.passengers } := by
  simp [payMutate]

/-- Counterexample to claim C2 as stated: the four writes of the mutation
phase are not atomic.  A crash after the first write (the payer debit) leaves
a state that is neither the pre-transfer state nor the completed-transfer
state — partial application. -/
theorem c2_counterexample_partial_application :
    ¬ (∀ (authId : String) (r : PayRequest) (db : DB) (n : ℕ),
        (payPOSTCrashed authId r db n).2 = db ∨
        (payPOSTCrashed authId r db n).2 = (payPOST authId r db).2) := by
  intro hclaim
  rcases hclaim "auth-passenger-a" samplePayReq sampleDB 1 with h1 | h1 <;>
    exact absurd h1 (by decide)

/-- Claim C2 (amended): the mutation phase has no enclosing transaction and
no rollback; a failure that strikes after the payer-debit write leaves the
debit applied while the payee credit and both Transaction records are
missing: the handler answers 500 with the payer already debited. -/
theorem c2_amended_crash_leaves_partial_state (authId : String) (r : PayRequest)
    (db : DB) (p : Passenger) (d : Driver) (q : ℚ)
    (hgo : payChecks authId r db = .go p d q)
    (hp : db.passengers.find? (fun x => x.pid == p.pid) = some p) :
    (payPOSTCrashed authId r db 1).1 = .serverError ∧
    walletOf (payPOSTCrashed authId r db 1).2 p.pid = some (p.wallet - q) ∧
    (payPOSTCrashed authId r db 1).2.drivers = db.drivers ∧
    (payPOSTCrashed authId r db 1).2.transactions = db.transactions := by
  unfold payPOSTCrashed
  rw [hgo]
  dsimp only
  rw [show min 1 4 = 1 from rfl, payMutate_one]
  refine ⟨rfl, ?_, rfl, rfl⟩
  unfold walletOf
  dsimp only
  rw [find?_updateFirst_self _ _ _ (by intro x hx'; simp [hx']), hp]
  rfl

/-- Concrete run of `c2_amended_crash_leaves_partial_state`: wallet 1000,
amount 400, crash after the debit: wallet 600, payee and Transaction log
untouched. -/
theorem c2_amended_crash_leaves_partial_state_witness :
    (payPOSTCrashed "auth-passenger-a" samplePayReq sampleDB 1).1 = .serverError ∧
    walletOf (payPOSTCrashed "auth-passenger-a" samplePayReq sampleDB 1).2
        samplePassengerA.pid = some (samplePassengerA.wallet - 400) ∧
    (payPOSTCrashed "auth-passenger-a" samplePayReq sampleDB 1).2.drivers =
      sampleDB.drivers ∧
    (payPOSTCrashed "auth-passenger-a" samplePayReq sampleDB 1).2.transactions =
      sampleDB.transactions :=
  c2_amended_crash_leaves_partial_state "auth-passenger-a" samplePayReq sampleDB
    samplePassengerA sampleDriverB 400 (by decide) (by decide)

/-- A pay request never changes the status of an existing Transaction: it can
only append fresh `Success` records. -/
theorem txStatusOf_payPOST_preserved (a : String) (r : PayRequest) (db : DB)
    (tid : ℕ) (st st' : TxStatus)
    (h1 : txStatusOf db tid = some st)
    (h2 : txStatusOf (payPOST a r db).2 tid = some st') : st = st' := by
  unfold txStatusOf at h1
  rcases Option.map_eq_some'.mp h1 with ⟨tx, hfind, hst⟩
  rcases hc : payChecks a r db with e | ⟨p, d, q⟩
  · unfold payPOST at h2
    rw [hc] at h2
    dsimp only at h2
    unfold txStatusOf at h2
    rw [hfind] at h2
    simp only [Option.map_some'] at h2
    rw [← hst]
    exact Option.some.inj h2
  · unfold payPOST at h2
    rw [hc] at h2
    dsimp only at h2
    rw [payMutate_four] at h2
    unfold txStatusOf at h2
    dsimp only at h2
    rw [find?_append_left _ _ _ _ hfind] at h2
    simp only [Option.map_some'] at h2
    rw [← hst]
    exact Option.some.inj h2

/-- Case analysis of the webhook handler's store effect: either the store is
untouched, or the matched Transaction was `Pending` and the handler rewrote
it to `Success` (crediting the wallet) or to `Failed`. -/
theorem webhookPOST_snd_cases (b : WebhookBody) (db : DB) :
    (webhookPOST b db).2 = db ∨
    ∃ t, db.transactions.find?
          (fun u => u.externalId == some (b.rawExternalId.getD "")) = some t ∧
      t.status = .Pending ∧
      ((webhookPOST b db).2.transactions =
          updateFirst (fun u => u.externalId == some (b.rawExternalId.getD ""))
            (fun _ => { t with status := TxStatus.Success,
                               fapshiTransactionId := b.rawFapshiTransactionId })
            db.transactions ∨
       (webhookPOST b db).2.transactions =
          updateFirst (fun u => u.externalId == some (b.rawExternalId.getD ""))
            (fun _ => { t with status := TxStatus.Failed,
                               fapshiTransactionId := b.rawFapshiTransactionId })
            db.transactions) := by
  by_cases hg1 : strFalsy b.rawExternalId
  · left; simp [webhookPOST, hg1]
  · by_cases hg2 : b.normalizedStatus == ""
    · left; simp [webhookPOST, hg1, hg2]
    · rcases hf : db.transactions.find?
          (fun u => u.externalId == some (b.rawExternalId.getD "")) with _ | t
      · left; simp [webhookPOST, hg1, hg2, hf]
      · by_cases hst : t.status = TxStatus.Pending
        · by_cases hsucc : isSuccessStatus b.normalizedStatus
          · rcases hpf : db.passengers.find? (fun p => p.pid == t.userId) with _ | p
            · left; simp [webhookPOST, hg1, hg2, hf, hst, hsucc, hpf]
            · right
              exact ⟨t, hf, hst,
                Or.inl (by simp [webhookPOST, hg1, hg2, hf, hst, hsucc, hpf])⟩
          · by_cases hfail : isFailedStatus b.normalizedStatus
            · right
              exact ⟨t, hf, hst,
                Or.inr (by simp [webhookPOST, hg1, hg2, hf, hst, hsucc, hfail])⟩
            · by_cases hpend : isPendingStatus b.normalizedStatus
              · left; simp [webhookPOST, hg1, hg2, hf, hst, hsucc, hfail, hpend]
              · left; simp [webhookPOST, hg1, hg2, hf, hst, hsucc, hfail, hpend]
        · left; simp [webhookPOST, hg1, hg2, hf, hst]

/-- A webhook delivery either leaves a Transaction's status unchanged or
moves it from `Pending` to `Success` or `Failed` (the `Pending` gate). -/
theorem txStatusOf_webhookPOST (b : WebhookBody) (db : DB) (tid : ℕ)
    (st st' : TxStatus)
    (h1 : txStatusOf db tid = some st)
    (h2 : txStatusOf (webhookPOST b db).2 tid = some st') :
    st = st' ∨ (st = .Pending ∧ (st' = .Success ∨ st' = .Failed)) := by
  rcases webhookPOST_snd_cases b db with hsame | ⟨t, hfindP, hpend, hupd | hupd⟩
  · left
    rw [hsame, h1] at h2
    exact Option.some.inj h2
  · unfold txStatusOf at h1 h2
    rw [hupd] at h2
    rcases find?_tid_updateFirst
        (fun u => u.externalId == some (b.rawExternalId.getD ""))
        (fun _ => { t with status := TxStatus.Success,
                           fapshiTransactionId := b.rawFapshiTransactionId })
        db.transactions t hfindP rfl tid with heq | ⟨hpre, hpost⟩
    · left
      rw [heq, h1] at h2
      exact Option.some.inj h2
    · right
      rw [hpre] at h1
      rw [hpost] at h2
      simp only [Option.map_some'] at h1 h2
      refine ⟨by rw [← Option.some.inj h1, hpend], ?_⟩
      left
      exact (Option.some.inj h2).symm
  · unfold txStatusOf at h1 h2
    rw [hupd] at h2
    rcases find?_tid_updateFirst
        (fun u => u.externalId == some (b.rawExternalId.getD ""))
        (fun _ => { t with status := TxStatus.Failed,
                           fapshiTransactionId := b.rawFapshiTransactionId })
        db.transactions t hfindP rfl tid with heq | ⟨hpre, hpost⟩
    · left
      rw [heq, h1] at h2
      exact Option.some.inj h2
    · right
      rw [hpre] at h1
      rw [hpost] at h2
      simp only [Option.map_some'] at h1 h2
      refine ⟨by rw [← Option.some.inj h1, hpend], ?_⟩
      right
      exact (Option.some.inj h2).symm

/-- Creating the `Pending` recharge Transaction only appends: existing
statuses are untouched. -/
theorem txStatusOf_rechargeBegin_preserved (a : String) (now : ℕ)
    (r : RechargeRequest) (db db' : DB) (tid' : ℕ)
    (h : rechargeBegin a now r db = some (db', tid'))
    (tid : ℕ) (st st' : TxStatus)
    (h1 : txStatusOf db tid = some st)
    (h2 : txStatusOf db' tid = some st') : st = st' := by
  unfold rechargeBegin at h
  rcases hfp : db.passengers.find? (fun p => p.authId == a) with _ | p
  · rw [hfp] at h; exact absurd h (by simp)
  · rw [hfp] at h
    unfold DB.createTx at h
    injection h with h'
    injection h' with hdb htid
    subst hdb
    unfold txStatusOf at h1 h2
    rcases Option.map_eq_some'.mp h1 with ⟨tx, hfind, hst⟩
    dsimp only at h2
    rw [find?_append_left _ _ _ _ hfind] at h2
    simp only [Option.map_some'] at h2
    rw [← hst]
    exact Option.some.inj h2

/-- Recording the gateway id of an accepted recharge never changes any
status. -/
theorem txStatusOf_settleOk_preserved (tid' : ℕ) (gatewayId : String) (db : DB)
    (tid : ℕ) (st st' : TxStatus)
    (h1 : txStatusOf db tid = some st)
    (h2 : txStatusOf (rechargeSettleOk tid' gatewayId db) tid = some st') :
    st = st' := by
  unfold rechargeSettleOk at h2
  unfold txStatusOf at h1 h2
  dsimp only at h2
  rcases hP : db.transactions.find? (fun t => t.tid == tid') with _ | t
  · rw [updateFirst_eq_self_of_find?_none _ _ _ hP] at h2
    rw [h1] at h2
    exact Option.some.inj h2
  · rcases find?_tid_updateFirst (fun t => t.tid == tid')
        (fun t => { t with fapshiTransactionId := some gatewayId })
        db.transactions t hP rfl tid with heq | ⟨hpre, hpost⟩
    · rw [heq, h1] at h2
      exact Option.some.inj h2
    · rw [hpre] at h1
      rw [hpost] at h2
      simp only [Option.map_some'] at h1 h2
      rw [← Option.some.inj h1]
      exact Option.some.inj h2

/-- The recharge failure path writes `Failed` unconditionally: a status
either stays what it was or becomes `Failed`. -/
theorem txStatusOf_settleFail (tid' : ℕ) (db : DB) (tid : ℕ) (st st' : TxStatus)
    (h1 : txStatusOf db tid = some st)
    (h2 : txStatusOf (rechargeSettleFail tid' db) tid = some st') :
    st = st' ∨ st' = .Failed := by
  unfold rechargeSettleFail at h2
  unfold txStatusOf at h1 h2
  dsimp only at h2
  rcases hP : db.transactions.find? (fun t => t.tid == tid') with _ | t
  · rw [updateFirst_eq_self_of_find?_none _ _ _ hP] at h2
    rw [h1] at h2
    exact Or.inl (Option.some.inj h2)
  · rcases find?_tid_updateFirst (fun t => t.tid == tid')
        (fun t => { t with status := TxStatus.Failed })
        db.transactions t hP rfl tid with heq | ⟨hpre, hpost⟩
    · rw [heq, h1] at h2
      exact Or.inl (Option.some.inj h2)
    · rw [hpost] at h2
      simp only [Option.map_some'] at h2
      exact Or.inr (Option.some.inj h2).symm

/-- The webhook's terminal save writes the in-memory document's branch
status over whatever is stored: a status either stays what it was or becomes
the written status `stw`. -/
theorem txStatusOf_saveTxStatus (t : Transaction) (stw : TxStatus)
    (gid : Option String) (db : DB) (tid : ℕ) (st st' : TxStatus)
    (h1 : txStatusOf db tid = some st)
    (h2 : txStatusOf (saveTxStatus t stw gid db) tid = some st') :
    st = st' ∨ st' = stw := by
  unfold saveTxStatus at h2
  unfold txStatusOf at h1 h2
  dsimp only at h2
  rcases hP : db.transactions.find? (fun u => u.tid == t.tid) with _ | y
  · rw [updateFirst_eq_self_of_find?_none _ _ _ hP] at h2
    rw [h1] at h2
    exact Or.inl (Option.some.inj h2)
  · have hy := List.find?_some hP
    have hyt : t.tid = y.tid := (eq_of_beq hy).symm
    rcases find?_tid_updateFirst (fun u => u.tid == t.tid)
        (fun _ => { t with status := stw, fapshiTransactionId := gid })
        db.transactions y hP hyt tid with heq | ⟨hpre, hpost⟩
    · rw [heq, h1] at h2
      exact Or.inl (Option.some.inj h2)
    · rw [hpost] at h2
      simp only [Option.map_some'] at h2
      exact Or.inr (Option.some.inj h2).symm

/-- Claim C5 (amended): across every atomic step of the interleaved system,
a Transaction's status is changed only by two kinds of write, and only ever
to a terminal status (never back to `Pending`): the webhook handler's
terminal-status save (`webhookSaveOp`, writing the `Success` or `Failed` of
its branch) and the recharge gateway-failure write (`rechargeFailOp`,
writing `Failed`).  Every other operation — the transfer, the recharge
initiation and gateway-id record, the webhook gate read and wallet credit,
and any no-write delivery — never changes any status.  Both status-writing
operations are gated on a `Pending` check read in an *earlier* `await` and
are unguarded at write time, so in a race-free run each performs
`Pending → Success` or `Pending → Failed`, but raced they can overwrite one
terminal status with the other. -/
theorem c5_amended_status_transitions (k : OpKind) (s s' : Sys)
    (hstep : StepL k s s') (tid : ℕ) (st st' : TxStatus)
    (h1 : txStatusOf s.db tid = some st)
    (h2 : txStatusOf s'.db tid = some st') :
    st = st' ∨
      (k = .webhookSaveOp ∧ (st' = .Success ∨ st' = .Failed)) ∨
      (k = .rechargeFailOp ∧ st' = .Failed) := by
  cases hstep with
  | pay a r s1 =>
    exact Or.inl (txStatusOf_payPOST_preserved a r s.db tid st st' h1 h2)
  | webhookAck b s1 h =>
    rw [h1] at h2
    exact Or.inl (Option.some.inj h2)
  | webhookGateSuccess b t s1 hex hns hfind hpend hsucc =>
    rw [h1] at h2
    exact Or.inl (Option.some.inj h2)
  | webhookGateFailed b t s1 hex hns hfind hpend hfail =>
    rw [h1] at h2
    exact Or.inl (Option.some.inj h2)
  | webhookCredit t gid s1 p hjob hp =>
    have h2' : txStatusOf s.db tid = some st' := h2
    rw [h1] at h2'
    exact Or.inl (Option.some.inj h2')
  | webhookCreditMissing t gid s1 hjob hp =>
    rw [h1] at h2
    exact Or.inl (Option.some.inj h2)
  | webhookSaveSuccess t gid s1 hjob =>
    rcases txStatusOf_saveTxStatus t .Success gid s.db tid st st' h1 h2 with h | h
    · exact Or.inl h
    · exact Or.inr (Or.inl ⟨rfl, Or.inl h⟩)
  | webhookSaveFailed t gid s1 hjob =>
    rcases txStatusOf_saveTxStatus t .Failed gid s.db tid st st' h1 h2 with h | h
    · exact Or.inl h
    · exact Or.inr (Or.inl ⟨rfl, Or.inr h⟩)
  | rechargeBeginStep a now r s1 db' tid' h =>
    exact Or.inl
      (txStatusOf_rechargeBegin_preserved a now r s.db db' tid' h tid st st' h1 h2)
  | rechargeOkStep tid' gatewayId s1 hmem =>
    exact Or.inl (txStatusOf_settleOk_preserved tid' gatewayId s.db tid st st' h1 h2)
  | rechargeFailStep tid' s1 hmem =>
    rcases txStatusOf_settleFail tid' s.db tid st st' h1 h2 with h | h
    · exact Or.inl h
    · exact Or.inr (Or.inr ⟨rfl, h⟩)

/-- The system after `samplePassengerC`'s recharge handler created its
`Pending` Transaction and is suspended at the gateway call. -/
def sampleSys1 : Sys := ⟨sampleRechargeDB, [0], []⟩

/-- Then the success webhook's gate read found the `Pending` document; its
handler is suspended before the wallet credit. -/
def sampleSys2 : Sys :=
  ⟨sampleRechargeDB, [0], [.credit samplePendingTx (some "FAP-123")]⟩

/-- Then the webhook's wallet credit ran; its handler is suspended before
the save. -/
def sampleSys3 : Sys :=
  ⟨incWallet samplePendingTx.userId samplePendingTx.amount sampleRechargeDB,
   [0], [.saveSuccess samplePendingTx (some "FAP-123")]⟩

/-- Then the webhook's save ran: the Transaction is `Success`, the wallet
credited; the recharge handler is still suspended at the gateway. -/
def sampleSys4 : Sys :=
  ⟨saveTxStatus samplePendingTx .Success (some "FAP-123")
     (incWallet samplePendingTx.userId samplePendingTx.amount sampleRechargeDB),
   [0], []⟩

/-- Counterexample to claim C5 as stated: a `Success → Failed` transition is
reachable.  Run: the recharge handler creates the `Pending` Transaction and
awaits the gateway; a success webhook delivery passes its gate, credits the
wallet and saves the Transaction as `Success`; then the recharge handler's
gateway call fails and its catch path runs
`findByIdAndUpdate(transactionId, { status: 'Failed' })` without checking
the current status, moving the Transaction out of its terminal state. -/
theorem c5_counterexample_success_to_failed :
    ¬ (∀ (ps : List Passenger) (ds : List Driver) (s s' : Sys),
        SysReachable (SysInit ps ds) s → Step s s' →
        ∀ (tid : ℕ) (st st' : TxStatus),
          txStatusOf s.db tid = some st → txStatusOf s'.db tid = some st' →
          st = st' ∨ st = .Pending) := by
  intro hclaim
  have hbegin : rechargeBegin "auth-passenger-c" 7 sampleRechargeReq
      (SysInit [samplePassengerC] []).db = some (sampleRechargeDB, 0) := by decide
  have hstep01 : Step (SysInit [samplePassengerC] []) sampleSys1 :=
    ⟨.rechargeBeginOp, StepL.rechargeBeginStep "auth-passenger-c" 7 sampleRechargeReq
      (SysInit [samplePassengerC] []) sampleRechargeDB 0 hbegin⟩
  have hstep12 : Step sampleSys1 sampleSys2 :=
    ⟨.webhookGateOp, StepL.webhookGateSuccess sampleWebhookBody samplePendingTx
      sampleSys1 (by decide) (by decide) (by decide) rfl (by decide)⟩
  have hstep23 : Step sampleSys2 sampleSys3 :=
    ⟨.webhookCreditOp, StepL.webhookCredit samplePendingTx (some "FAP-123")
      sampleSys2 samplePassengerC (by decide) (by decide)⟩
  have hstep34 : Step sampleSys3 sampleSys4 :=
    ⟨.webhookSaveOp, StepL.webhookSaveSuccess samplePendingTx (some "FAP-123")
      sampleSys3 (by decide)⟩
  have hreach : SysReachable (SysInit [samplePassengerC] []) sampleSys4 :=
    Relation.ReflTransGen.tail (Relation.ReflTransGen.tail (Relation.ReflTransGen.tail
      (Relation.ReflTransGen.tail Relation.ReflTransGen.refl hstep01) hstep12)
      hstep23) hstep34
  have hstep45 : Step sampleSys4
      ⟨rechargeSettleFail 0 sampleSys4.db, sampleSys4.inflight.erase 0, []⟩ :=
    ⟨.rechargeFailOp, StepL.rechargeFailStep 0 sampleSys4 (by decide)⟩
  have h := hclaim [samplePassengerC] [] sampleSys4
    ⟨rechargeSettleFail 0 sampleSys4.db, sampleSys4.inflight.erase 0, []⟩
    hreach hstep45 0 .Success .Failed (by decide) (by decide)
  rcases h with h | h <;> exact absurd h (by decide)

/-- Concrete application of `c5_amended_status_transitions`: the webhook
save step from `sampleSys3` to `sampleSys4` moves Transaction 0 from
`Pending` to `Success`, which the amended transition relation attributes to
`webhookSaveOp`. -/
theorem c5_amended_status_transitions_witness :
    TxStatus.Pending = TxStatus.Success ∨
    (OpKind.webhookSaveOp = OpKind.webhookSaveOp ∧
      (TxStatus.Success = TxStatus.Success ∨ TxStatus.Success = TxStatus.Failed)) ∨
    (OpKind.webhookSaveOp = OpKind.rechargeFailOp ∧
      TxStatus.Success = TxStatus.Failed) :=
  c5_amended_status_transitions .webhookSaveOp sampleSys3 sampleSys4
    (StepL.webhookSaveSuccess samplePendingTx (some "FAP-123") sampleSys3 (by decide))
    0 .Pending .Success (by decide) (by decide)

end ConcreteRatEval
